import Mathlib

/-!
Verification of the notification dispatcher in `cmd/bosun/conf/notify.go`.

The SMTP session driver (`SendMail`) and the message-level `Send` wrapper are
embedded shallowly: the wire-level collaborators (the relay reached through
Go's `net/smtp` client, the address parser `net/mail.ParseAddress`, the
`email` library's `Bytes` serializer, and the HTTP client used by `DoPost`)
are modelled as explicit environments, and each network-visible action of the
session is recorded in an event trace.  The functions below follow the Go
control flow statement by statement: every early `return err` becomes an
early exit with the accumulated trace, and the `defer c.Close()` becomes an
unconditional trailing `closeConn` event on every path after a successful
dial.
-/

namespace Bosun

/-- One network-visible action of an SMTP session, in the order the Go client
issues it: `smtp.Dial`, `c.Hello`, `c.StartTLS`, `c.Auth`, `c.Mail`,
`c.Rcpt`, `c.Data`, `w.Write`, `w.Close`, `c.Quit`, and the deferred
`c.Close`. -/
inductive Event where
  | dial (addr : String)
  | hello (name : String)
  | startTLS
  | auth
  | mailFrom (sender : String)
  | rcpt (addr : String)
  | data
  | write (msg : List Nat)
  | closeWriter
  | quit
  | closeConn
deriving DecidableEq, Repr

/-- The relay's behaviour as seen through the Go smtp client: for each
command the error the client call returns (`none` = success), whether the
EHLO response advertised STARTTLS, and the (ignored) outcome of `c.Auth`.
`rcptErr` answers per recipient address. -/
structure Relay where
  dialErr : Option String
  helloErr : Option String
  starttlsAdvertised : Bool
  startTLSErr : Option String
  authErr : Option String
  mailErr : Option String
  rcptErr : String → Option String
  dataErr : Option String
  writeErr : Option String
  closeWErr : Option String
  quitErr : Option String

/-- The `for _, addr := range to { if err = c.Rcpt(addr); err != nil { return err } }`
loop of `SendMail`: declare recipients in order, stopping at the first
rejection. -/
def rcptLoop (r : Relay) : List String → Option String × List Event
  | [] => (none, [])
  | a :: rest =>
    match r.rcptErr a with
    | some e => (some e, [Event.rcpt a])
    | none => ((rcptLoop r rest).1, Event.rcpt a :: (rcptLoop r rest).2)

/-- The envelope and transfer stages of `SendMail`: `c.Mail(from)`, the
recipient loop, `c.Data()`, `w.Write(msg)`, `w.Close()`, `return c.Quit()`.
Each error returns immediately with the trace so far. -/
def envelope (r : Relay) (sender : String) (toAddrs : List String) (msg : List Nat) :
    Option String × List Event :=
  match r.mailErr with
  | some e => (some e, [Event.mailFrom sender])
  | none =>
    match rcptLoop r toAddrs with
    | (some e, evs) => (some e, Event.mailFrom sender :: evs)
    | (none, evs) =>
      match r.dataErr with
      | some e => (some e, Event.mailFrom sender :: evs ++ [Event.data])
      | none =>
        match r.writeErr with
        | some e => (some e, Event.mailFrom sender :: evs ++ [Event.data, Event.write msg])
        | none =>
          match r.closeWErr with
          | some e =>
            (some e, Event.mailFrom sender :: evs ++
              [Event.data, Event.write msg, Event.closeWriter])
          | none =>
            (r.quitErr, Event.mailFrom sender :: evs ++
              [Event.data, Event.write msg, Event.closeWriter, Event.quit])

/-- The body of `SendMail` after a successful `smtp.Dial`:
`c.Hello("localhost")`, then `if ok, _ := c.Extension("STARTTLS"); ok`
upgrade to TLS (fatal on failure) and, when a username or password was
supplied, call `c.Auth` with its error discarded, then the envelope stages.
(`c.Extension` only consults the stored EHLO response, so it produces no
event.) -/
def smtpSession (r : Relay) (username password sender : String) (toAddrs : List String)
    (msg : List Nat) : Option String × List Event :=
  match r.helloErr with
  | some e => (some e, [Event.hello "localhost"])
  | none =>
    if r.starttlsAdvertised then
      match r.startTLSErr with
      | some e => (some e, [Event.hello "localhost", Event.startTLS])
      | none =>
        if username.length > 0 || password.length > 0 then
          ((envelope r sender toAddrs msg).1,
            Event.hello "localhost" :: Event.startTLS :: Event.auth ::
              (envelope r sender toAddrs msg).2)
        else
          ((envelope r sender toAddrs msg).1,
            Event.hello "localhost" :: Event.startTLS :: (envelope r sender toAddrs msg).2)
    else
      ((envelope r sender toAddrs msg).1,
        Event.hello "localhost" :: (envelope r sender toAddrs msg).2)

/-- `SendMail(addr, username, password, from, to, msg)`: dial the relay
(fatal on failure, nothing to close), then run the session with
`defer c.Close()` — the connection-close event is appended on every exit
path of the body. -/
def SendMail (r : Relay) (addr username password sender : String) (toAddrs : List String)
    (msg : List Nat) : Option String × List Event :=
  match r.dialErr with
  | some e => (some e, [Event.dial addr])
  | none =>
    ((smtpSession r username password sender toAddrs msg).1,
      Event.dial addr :: (smtpSession r username password sender toAddrs msg).2 ++
        [Event.closeConn])

/-- The Go sources' validation error:
`errors.New("Must specify at least one From address and one To address")`. -/
def validationErr : String := "Must specify at least one From address and one To address"

/-- The fields of `email.Email` that `Send` reads. -/
structure Email where
  From : String
  To : List String
  Cc : List String
  Bcc : List String
deriving Repr

/-- External collaborators of `Send`: `net/mail.ParseAddress` (returning the
parsed `.Address` field or an error) and the email library's `e.Bytes()`
serialization. -/
structure MailEnv where
  parseAddress : String → Except String String
  bytesOf : Email → Except String (List Nat)

/-- `Send(e, addr, username, password)`: merge To/Cc/Bcc, fail if the From
address is empty or the merged list is empty, parse the From address, render
the message bytes, and only then call `SendMail`.  The trace is empty (no
socket opened) whenever `SendMail` is not reached. -/
def Send (env : MailEnv) (r : Relay) (e : Email) (addr username password : String) :
    Option String × List Event :=
  let toAddrs := e.To ++ e.Cc ++ e.Bcc
  if e.From = "" ∨ toAddrs = [] then
    (some validationErr, [])
  else
    match env.parseAddress e.From with
    | .error err => (some err, [])
    | .ok fromAddr =>
      match env.bytesOf e with
      | .error err => (some err, [])
      | .ok raw => SendMail r addr username password fromAddr toAddrs raw

/-- Projection extracting the recipient address from an `rcpt` event. -/
def rcptOf : Event → Option String
  | .rcpt a => some a
  | _ => none

/-- The incident fields read by `GetPayload` / `DoPost`. -/
structure IncidentState where
  Subject : String
  Body : String
  AlertKey : String
deriving Repr

/-- The `interface{}` value handed to `n.Body.Execute`: either the full
incident state or the flat payload string chosen by `UseFullContext`. -/
inductive TmplContext where
  | incident (st : IncidentState)
  | flat (s : String)

/-- An abstract body template: running it on a context either fails or
produces the rendered string (`template.Execute`). -/
structure Template where
  run : TmplContext → Except String String

/-- The `Notification` fields read by `GetPayload` and `DoPost`. -/
structure Notification where
  UseBody : Bool
  UseFullContext : Bool
  Body : Option Template
  ContentType : String

/-- The HTTP client's answer to `http.Post`: a transport error or the
response status code. -/
structure HttpEnv where
  postResp : Except String Nat

/-- Observable outcome of one `DoPost` run: the payload it posted (if the
POST was issued at all), which log line it emitted, and its increments to the
email sent/failed counters.  `DoPost` returns nothing to its caller in the
source, so the outcome carries no error channel. -/
structure PostResult where
  payloadSent : Option String
  loggedError : Bool
  loggedSuccess : Bool
  sentDelta : Nat
  failedDelta : Nat
deriving DecidableEq, Repr

/-- `GetPayload(subject, body)`: the body when `UseBody` is set, otherwise
the subject. -/
def Notification.GetPayload (n : Notification) (subject body : String) : String :=
  if n.UseBody then body else subject

/-- The tail of `DoPost` from `http.Post` on: log the transport error, or
log `bad response` when the status is at least 300, or log success.  No line
of this function touches the `email.sent` / `email.sent_failed` counters
(`collect.Add` appears only in `DoEmail`). -/
def postStep (payload : String) (env : HttpEnv) : PostResult :=
  match env.postResp with
  | .error _ =>
    { payloadSent := some payload, loggedError := true, loggedSuccess := false,
      sentDelta := 0, failedDelta := 0 }
  | .ok status =>
    if status ≥ 300 then
      { payloadSent := some payload, loggedError := true, loggedSuccess := false,
        sentDelta := 0, failedDelta := 0 }
    else
      { payloadSent := some payload, loggedError := false, loggedSuccess := true,
        sentDelta := 0, failedDelta := 0 }

/-- `DoPost(st)`: start from `GetPayload`, and if a body template is
configured, replace the payload by the template rendered over either the
full incident (`UseFullContext`) or the flat payload string; a rendering
error logs and returns before any POST.  Then POST the payload. -/
def Notification.DoPost (n : Notification) (st : IncidentState) (env : HttpEnv) :
    PostResult :=
  let payload := n.GetPayload st.Subject st.Body
  match n.Body with
  | none => postStep payload env
  | some tmpl =>
    let context := if n.UseFullContext then TmplContext.incident st else TmplContext.flat payload
    match tmpl.run context with
    | .error _ =>
      { payloadSent := none, loggedError := true, loggedSuccess := false,
        sentDelta := 0, failedDelta := 0 }
    | .ok rendered => postStep rendered env

/-- A concrete address parser for witnesses and counterexamples: accepts
exactly the strings containing an `@`. -/
def toyParse (s : String) : Except String String :=
  if '@' ∈ s.data then .ok s else .error "mail: missing @ in addr-spec"

/-- A relay that accepts every command and advertises no extension. -/
def relayOK : Relay :=
  ⟨none, none, false, none, none, none, fun _ => none, none, none, none, none⟩

/-- A relay that accepts every command and advertises STARTTLS. -/
def relayTLS : Relay :=
  { relayOK with starttlsAdvertised := true }

/-- A relay that rejects the recipient `c@y.com` at the RCPT stage and
accepts everything else. -/
def relayRejectC : Relay :=
  { relayOK with rcptErr := fun a => if a = "c@y.com" then some "550 rejected" else none }

/-- A concrete environment built from `toyParse` whose serializer always
succeeds with an empty byte list. -/
def envOK : MailEnv :=
  ⟨toyParse, fun _ => .ok []⟩

/-- A concrete environment whose parser accepts every address verbatim. -/
def envID : MailEnv :=
  ⟨fun s => .ok s, fun _ => .ok []⟩

/-- A concrete template that brackets its flat context and renders the full
incident to a fixed marker string. -/
def wrapTemplate : Template :=
  ⟨fun c => match c with
    | .flat s => .ok ("[" ++ s ++ "]")
    | .incident _ => .ok "FULL"⟩

/-- A notification with a body template, `UseFullContext = false`,
`UseBody = true`. -/
def notifWrap : Notification :=
  { UseBody := true, UseFullContext := false, Body := some wrapTemplate,
    ContentType := "text/plain" }

/-- A notification with no body template and `UseBody = true`. -/
def notifPlain : Notification :=
  { UseBody := true, UseFullContext := false, Body := none, ContentType := "text/plain" }

/-- A concrete incident. -/
def incident0 : IncidentState := ⟨"subj", "body-text", "ak"⟩

/-- An HTTP environment answering status 404. -/
def env404 : HttpEnv := ⟨.ok 404⟩

/-- An HTTP environment answering status 200. -/
def env200 : HttpEnv := ⟨.ok 200⟩

/-! ### Trace lemmas for the session driver -/

/-- Every event emitted by the recipient loop is an `rcpt` event. -/
theorem rcptLoop_events (r : Relay) (l : List String) :
    ∀ ev ∈ (rcptLoop r l).2, ∃ a, ev = Event.rcpt a := by
  induction l with
  | nil => simp [rcptLoop]
  | cons a rest ih =>
    intro ev hev
    cases h : r.rcptErr a with
    | some e =>
      simp [rcptLoop, h] at hev
      exact ⟨a, hev⟩
    | none =>
      simp only [rcptLoop, h, List.mem_cons] at hev
      rcases hev with hev | hev
      · exact ⟨a, hev⟩
      · exact ih ev hev

/-- When every recipient is accepted, the loop declares them all, in order. -/
theorem rcptLoop_ok (r : Relay) (l : List String) (h : ∀ a ∈ l, r.rcptErr a = none) :
    rcptLoop r l = (none, l.map Event.rcpt) := by
  induction l with
  | nil => simp [rcptLoop]
  | cons a rest ih =>
    have ha : r.rcptErr a = none := h a (by simp)
    have hrest := ih fun b hb => h b (by simp [hb])
    simp [rcptLoop, ha, hrest]

/-- When the recipients before `x` are accepted and `x` is rejected, the
loop stops at `x`: it returns the rejection error and declares exactly the
accepted prefix plus `x`, never the recipients after `x`. -/
theorem rcptLoop_reject (r : Relay) (l1 l2 : List String) (x e : String)
    (h1 : ∀ a ∈ l1, r.rcptErr a = none) (hx : r.rcptErr x = some e) :
    rcptLoop r (l1 ++ x :: l2) = (some e, l1.map Event.rcpt ++ [Event.rcpt x]) := by
  induction l1 with
  | nil => simp [rcptLoop, hx]
  | cons a rest ih =>
    have ha : r.rcptErr a = none := h1 a (by simp)
    have hrest := ih fun b hb => h1 b (by simp [hb])
    simp [rcptLoop, ha, hrest]

/-- Every event of the envelope/transfer stages is one of `mailFrom`,
`rcpt`, `data`, `write`, `closeWriter`, `quit` — in particular never `auth`,
`startTLS` or `closeConn`. -/
theorem envelope_events (r : Relay) (sender : String) (l : List String) (msg : List Nat) :
    ∀ ev ∈ (envelope r sender l msg).2,
      ev = Event.mailFrom sender ∨ (∃ a, ev = Event.rcpt a) ∨ ev = Event.data ∨
        ev = Event.write msg ∨ ev = Event.closeWriter ∨ ev = Event.quit := by
  intro ev hev
  have hr := rcptLoop_events r l
  rcases hrl : rcptLoop r l with ⟨rres, revs⟩
  rw [hrl] at hr
  simp only [envelope, hrl] at hev
  cases hm : r.mailErr <;> rw [hm] at hev <;>
    cases rres <;> cases hd : r.dataErr <;> rw [hd] at hev <;>
    cases hw : r.writeErr <;> rw [hw] at hev <;>
    cases hc : r.closeWErr <;> rw [hc] at hev <;>
    simp at hev <;> tauto

/-- The envelope/transfer stages never attempt authentication. -/
theorem envelope_no_auth (r : Relay) (sender : String) (l : List String) (msg : List Nat) :
    Event.auth ∉ (envelope r sender l msg).2 := by
  intro h
  rcases envelope_events r sender l msg _ h with h | ⟨a, h⟩ | h | h | h | h <;> simp at h

/-- The envelope/transfer stages never close the connection themselves. -/
theorem envelope_no_closeConn (r : Relay) (sender : String) (l : List String)
    (msg : List Nat) : Event.closeConn ∉ (envelope r sender l msg).2 := by
  intro h
  rcases envelope_events r sender l msg _ h with h | ⟨a, h⟩ | h | h | h | h <;> simp at h

/-- The session body (everything under the deferred close) never closes the
connection itself: the only `closeConn` is the deferred one. -/
theorem smtpSession_no_closeConn (r : Relay) (u p sender : String) (l : List String)
    (m : List Nat) : Event.closeConn ∉ (smtpSession r u p sender l m).2 := by
  cases hh : r.helloErr <;> cases hadv : r.starttlsAdvertised <;>
    cases hs : r.startTLSErr <;> cases hcred : (u.length > 0 || p.length > 0) <;>
    simp [smtpSession, hh, hadv, hs, hcred, envelope_no_closeConn r sender l m]

/-- Claim C1: if the From address is the empty string or the merged
To/Cc/Bcc recipient list is empty, `Send` returns the validation error with
an empty trace — `SendMail` is never invoked and no socket is opened. -/
theorem send_empty_validation (env : MailEnv) (r : Relay) (e : Email)
    (addr username password : String)
    (h : e.From = "" ∨ e.To ++ e.Cc ++ e.Bcc = []) :
    Send env r e addr username password = (some validationErr, []) := by
  have : (e.From = "" ∨ e.To ++ e.Cc ++ e.Bcc = []) = True := eq_true h
  simp only [Send, this, if_true]

/-- Witness for C1 at a concrete email with an empty recipient list. -/
theorem send_empty_validation_witness :
    Send ⟨fun s => .ok s, fun _ => .ok []⟩
      ⟨none, none, false, none, none, none, fun _ => none, none, none, none, none⟩
      ⟨"a@x.com", [], [], []⟩ "relay:25" "" "" = (some validationErr, []) :=
  send_empty_validation _ _ _ _ _ _ (Or.inr rfl)

/-- Claim C3: when the relay does not advertise STARTTLS, no authentication
attempt is ever made, whatever username and password are configured. -/
theorem sendMail_no_starttls_no_auth (r : Relay) (addr username password sender : String)
    (l : List String) (m : List Nat) (h : r.starttlsAdvertised = false) :
    Event.auth ∉ (SendMail r addr username password sender l m).2 := by
  cases hd : r.dialErr <;> cases hh : r.helloErr <;>
    simp [SendMail, smtpSession, hd, hh, h, envelope_no_auth r sender l m]

/-- Witness for C3: non-empty credentials, relay without STARTTLS. -/
theorem sendMail_no_starttls_no_auth_witness :
    Event.auth ∉ (SendMail relayOK "relay:25" "user" "pw" "a@x.com" ["b@y.com"] []).2 :=
  sendMail_no_starttls_no_auth relayOK "relay:25" "user" "pw" "a@x.com" ["b@y.com"] [] rfl

/-- Claim C6: once the dial succeeds, the connection is closed exactly once
before `SendMail` returns, on every exit path of the session body. -/
theorem sendMail_close_once (r : Relay) (addr username password sender : String)
    (l : List String) (m : List Nat) (h : r.dialErr = none) :
    List.count Event.closeConn (SendMail r addr username password sender l m).2 = 1 := by
  have hnc := smtpSession_no_closeConn r username password sender l m
  simp [SendMail, h, List.count_append, List.count_cons, List.count_eq_zero.mpr hnc]

/-- Witness for C6 on a concrete relay with STARTTLS and credentials. -/
theorem sendMail_close_once_witness :
    List.count Event.closeConn
      (SendMail relayTLS "relay:25" "user" "pw" "a@x.com" ["b@y.com"] []).2 = 1 :=
  sendMail_close_once relayTLS "relay:25" "user" "pw" "a@x.com" ["b@y.com"] [] rfl

/-- Claim C10: without STARTTLS the session neither fails nor upgrades nor
authenticates; it proceeds to the envelope and the full message over the
plain connection and returns success when every remaining step succeeds. -/
theorem sendMail_no_starttls_proceeds (r : Relay) (addr username password sender : String)
    (l : List String) (m : List Nat)
    (hadv : r.starttlsAdvertised = false) (hd : r.dialErr = none) (hh : r.helloErr = none)
    (hm : r.mailErr = none) (hr : ∀ a ∈ l, r.rcptErr a = none)
    (hdata : r.dataErr = none) (hw : r.writeErr = none) (hcw : r.closeWErr = none)
    (hq : r.quitErr = none) :
    SendMail r addr username password sender l m =
      (none, Event.dial addr :: Event.hello "localhost" :: Event.mailFrom sender ::
        (l.map Event.rcpt ++
          [Event.data, Event.write m, Event.closeWriter, Event.quit, Event.closeConn])) := by
  simp [SendMail, smtpSession, envelope, hadv, hd, hh, hm, hdata, hw, hcw, hq,
    rcptLoop_ok r l hr]

/-- Witness for C10 on a concrete plain relay accepting everything. -/
theorem sendMail_no_starttls_proceeds_witness :
    SendMail relayOK "relay:25" "" "" "a@x.com" ["b@y.com", "c@y.com"] [1, 2] =
      (none, [Event.dial "relay:25", Event.hello "localhost", Event.mailFrom "a@x.com",
        Event.rcpt "b@y.com", Event.rcpt "c@y.com", Event.data, Event.write [1, 2],
        Event.closeWriter, Event.quit, Event.closeConn]) :=
  sendMail_no_starttls_proceeds relayOK "relay:25" "" "" "a@x.com" ["b@y.com", "c@y.com"]
    [1, 2] rfl rfl rfl rfl (fun _ _ => rfl) rfl rfl rfl rfl

/-- Declaring a list of recipients on the wire and reading back the `rcpt`
events recovers the list. -/
theorem filterMap_rcptOf_map (l : List String) :
    List.filterMap rcptOf (l.map Event.rcpt) = l := by
  induction l with
  | nil => rfl
  | cons a rest ih => simp [rcptOf, ih]

/-- Composed form of the previous lemma, as `simp` produces it. -/
theorem filterMap_rcptOf_comp (l : List String) :
    List.filterMap (rcptOf ∘ Event.rcpt) l = l := by
  induction l with
  | nil => rfl
  | cons a rest ih => simp [Function.comp, rcptOf, ih]

/-- The recipient loop never reads the relay's answer to `c.Auth`. -/
theorem rcptLoop_authErr (r : Relay) (x : Option String) (l : List String) :
    rcptLoop { r with authErr := x } l = rcptLoop r l := by
  induction l with
  | nil => rfl
  | cons a rest ih => simp [rcptLoop, ih]

/-- The envelope and transfer stages never read the relay's answer to
`c.Auth`. -/
theorem envelope_authErr (r : Relay) (x : Option String) (sender : String)
    (l : List String) (m : List Nat) :
    envelope { r with authErr := x } sender l m = envelope r sender l m := by
  simp [envelope, rcptLoop_authErr]

/-- The session body never reads the relay's answer to `c.Auth`: the code
discards the result of `c.Auth(auth)`. -/
theorem smtpSession_authErr (r : Relay) (x : Option String) (u p sender : String)
    (l : List String) (m : List Nat) :
    smtpSession { r with authErr := x } u p sender l m = smtpSession r u p sender l m := by
  simp [smtpSession, envelope_authErr]

/-- `SendMail` never reads the relay's answer to `c.Auth`. -/
theorem sendMail_authErr (r : Relay) (x : Option String) (addr u p sender : String)
    (l : List String) (m : List Nat) :
    SendMail { r with authErr := x } addr u p sender l m = SendMail r addr u p sender l m := by
  simp [SendMail, smtpSession_authErr]

/-- With the sender accepted and recipient `x` rejected after an accepted
prefix `l1`, the envelope stage returns the rejection, having declared
exactly the prefix and `x`: no later recipients, no data stage. -/
theorem envelope_reject (r : Relay) (sender : String) (l1 l2 : List String) (x e : String)
    (msg : List Nat) (hm : r.mailErr = none)
    (h1 : ∀ a ∈ l1, r.rcptErr a = none) (hx : r.rcptErr x = some e) :
    envelope r sender (l1 ++ x :: l2) msg =
      (some e, Event.mailFrom sender :: (l1.map Event.rcpt ++ [Event.rcpt x])) := by
  simp [envelope, hm, rcptLoop_reject r l1 l2 x e h1 hx]

/-- On an accepting envelope, the recipients declared on the wire are
exactly the input list, whatever happens in the transfer stage. -/
theorem envelope_rcpts (r : Relay) (sender : String) (l : List String) (msg : List Nat)
    (hm : r.mailErr = none) (hrc : ∀ a ∈ l, r.rcptErr a = none) :
    List.filterMap rcptOf (envelope r sender l msg).2 = l := by
  cases hdata : r.dataErr <;> cases hw : r.writeErr <;> cases hc : r.closeWErr <;>
    simp [envelope, hm, hdata, hw, hc, rcptLoop_ok r l hrc, filterMap_rcptOf_map,
      filterMap_rcptOf_comp, rcptOf]

/-- On an accepting relay, the recipients `SendMail` declares on the wire
are exactly its input list, in order and with duplicates. -/
theorem sendMail_rcpts (r : Relay) (addr username password sender : String)
    (l : List String) (m : List Nat)
    (hd : r.dialErr = none) (hh : r.helloErr = none)
    (hts : r.starttlsAdvertised = true → r.startTLSErr = none)
    (hm : r.mailErr = none) (hrc : ∀ a ∈ l, r.rcptErr a = none) :
    List.filterMap rcptOf (SendMail r addr username password sender l m).2 = l := by
  have henv := envelope_rcpts r sender l m hm hrc
  cases hadv : r.starttlsAdvertised
  · simp [SendMail, smtpSession, hd, hh, hadv, henv, rcptOf]
  · have hs := hts hadv
    cases hcred : (username.length > 0 || password.length > 0) <;>
      simp [SendMail, smtpSession, hd, hh, hadv, hs, hcred, henv, rcptOf]

/-- Claim C2: with a non-empty merged recipient list and a parsable sender,
`Send` hands `SendMail` exactly the list To ++ Cc ++ Bcc — order within and
across the three lists preserved, duplicates retained — and on an accepting
relay the recipients declared on the wire are exactly that list. -/
theorem send_merges_recipients (env : MailEnv) (r : Relay) (e : Email)
    (addr username password fromAddr : String) (raw : List Nat)
    (hf : e.From ≠ "") (hne : e.To ++ e.Cc ++ e.Bcc ≠ [])
    (hp : env.parseAddress e.From = .ok fromAddr)
    (hb : env.bytesOf e = .ok raw)
    (hd : r.dialErr = none) (hh : r.helloErr = none)
    (hts : r.starttlsAdvertised = true → r.startTLSErr = none)
    (hm : r.mailErr = none) (hrc : ∀ a ∈ e.To ++ e.Cc ++ e.Bcc, r.rcptErr a = none) :
    Send env r e addr username password =
        SendMail r addr username password fromAddr (e.To ++ e.Cc ++ e.Bcc) raw ∧
      List.filterMap rcptOf (Send env r e addr username password).2 =
        e.To ++ e.Cc ++ e.Bcc := by
  have hcall : Send env r e addr username password =
      SendMail r addr username password fromAddr (e.To ++ e.Cc ++ e.Bcc) raw := by
    have hcond : (e.From = "" ∨ e.To ++ e.Cc ++ e.Bcc = []) = False :=
      eq_false fun h => h.elim hf hne
    simp only [Send, hcond, if_false, hp, hb]
  refine ⟨hcall, ?_⟩
  rw [hcall]
  exact sendMail_rcpts r addr username password fromAddr _ raw hd hh hts hm hrc

/-- Witness for C2 with duplicate and cross-list recipients. -/
theorem send_merges_recipients_witness :
    Send envID relayOK ⟨"a@x.com", ["b@y.com", "c@y.com"], ["d@y.com"], ["b@y.com"]⟩
        "relay:25" "" "" =
      SendMail relayOK "relay:25" "" "" "a@x.com"
        (["b@y.com", "c@y.com"] ++ ["d@y.com"] ++ ["b@y.com"]) [] ∧
    List.filterMap rcptOf
        (Send envID relayOK ⟨"a@x.com", ["b@y.com", "c@y.com"], ["d@y.com"], ["b@y.com"]⟩
          "relay:25" "" "").2 =
      ["b@y.com", "c@y.com"] ++ ["d@y.com"] ++ ["b@y.com"] :=
  send_merges_recipients envID relayOK
    ⟨"a@x.com", ["b@y.com", "c@y.com"], ["d@y.com"], ["b@y.com"]⟩
    "relay:25" "" "" "a@x.com" [] (by decide) (by decide) rfl rfl rfl rfl
    (fun _ => rfl) rfl (fun _ _ => rfl)

/-- Claim C4: with STARTTLS advertised, a successful upgrade and non-empty
credentials, exactly one authentication attempt is made, placed after the
TLS upgrade and before the `MAIL FROM` declaration (it is the fourth event,
and never recurs in the remaining trace); and the relay's answer to the
authentication attempt has no effect on the rest of the session or on the
returned value. -/
theorem sendMail_auth_once_after_tls (r : Relay) (addr username password sender : String)
    (l : List String) (m : List Nat)
    (hd : r.dialErr = none) (hh : r.helloErr = none)
    (hadv : r.starttlsAdvertised = true) (hs : r.startTLSErr = none)
    (hcred : (username.length > 0 || password.length > 0) = true) :
    (∃ rest, (SendMail r addr username password sender l m).2 =
        Event.dial addr :: Event.hello "localhost" :: Event.startTLS :: Event.auth :: rest ∧
        Event.auth ∉ rest) ∧
      List.count Event.auth (SendMail r addr username password sender l m).2 = 1 ∧
      ∀ x, SendMail { r with authErr := x } addr username password sender l m =
        SendMail r addr username password sender l m := by
  have hna := envelope_no_auth r sender l m
  refine ⟨⟨(envelope r sender l m).2 ++ [Event.closeConn], ?_, ?_⟩, ?_, ?_⟩
  · simp [SendMail, smtpSession, hd, hh, hadv, hs, hcred]
  · simp [hna]
  · simp [SendMail, smtpSession, hd, hh, hadv, hs, hcred, List.count_append,
      List.count_cons, List.count_eq_zero.mpr hna]
  · intro x
    exact sendMail_authErr r x addr username password sender l m

/-- Witness for C4 with a username and an empty password. -/
theorem sendMail_auth_once_after_tls_witness :
    (∃ rest, (SendMail relayTLS "relay:25" "user" "" "a@x.com" ["b@y.com"] []).2 =
        Event.dial "relay:25" :: Event.hello "localhost" :: Event.startTLS ::
          Event.auth :: rest ∧ Event.auth ∉ rest) ∧
      List.count Event.auth
        (SendMail relayTLS "relay:25" "user" "" "a@x.com" ["b@y.com"] []).2 = 1 ∧
      ∀ x, SendMail { relayTLS with authErr := x } "relay:25" "user" "" "a@x.com"
          ["b@y.com"] [] =
        SendMail relayTLS "relay:25" "user" "" "a@x.com" ["b@y.com"] [] :=
  sendMail_auth_once_after_tls relayTLS "relay:25" "user" "" "a@x.com" ["b@y.com"] []
    rfl rfl rfl rfl rfl

/-- Claim C5: when the sender is accepted and the relay rejects recipient
`x` after accepting the prefix `l1`, `SendMail` returns the rejection
error, declares no recipient beyond `x` (the wire sees exactly `l1 ++ [x]`),
never enters the DATA stage, and closes the connection exactly once. -/
theorem sendMail_rcpt_reject_aborts (r : Relay) (addr username password sender : String)
    (l1 l2 : List String) (x e : String) (m : List Nat)
    (hd : r.dialErr = none) (hh : r.helloErr = none)
    (hts : r.starttlsAdvertised = true → r.startTLSErr = none)
    (hm : r.mailErr = none)
    (h1 : ∀ a ∈ l1, r.rcptErr a = none) (hx : r.rcptErr x = some e) :
    (SendMail r addr username password sender (l1 ++ x :: l2) m).1 = some e ∧
      List.filterMap rcptOf
          (SendMail r addr username password sender (l1 ++ x :: l2) m).2 = l1 ++ [x] ∧
      Event.data ∉ (SendMail r addr username password sender (l1 ++ x :: l2) m).2 ∧
      List.count Event.closeConn
        (SendMail r addr username password sender (l1 ++ x :: l2) m).2 = 1 := by
  have henv := envelope_reject r sender l1 l2 x e m hm h1 hx
  have hnc := smtpSession_no_closeConn r username password sender (l1 ++ x :: l2) m
  have hcount : List.count Event.closeConn
      (SendMail r addr username password sender (l1 ++ x :: l2) m).2 = 1 := by
    simp [SendMail, hd, List.count_append, List.count_cons, List.count_eq_zero.mpr hnc]
  refine ⟨?_, ?_, ?_, hcount⟩ <;>
    · cases hadv : r.starttlsAdvertised
      · simp [SendMail, smtpSession, hd, hh, hadv, henv, filterMap_rcptOf_map,
          filterMap_rcptOf_comp, rcptOf]
      · have hs := hts hadv
        cases hcred : (username.length > 0 || password.length > 0) <;>
          simp [SendMail, smtpSession, hd, hh, hadv, hs, hcred, henv,
            filterMap_rcptOf_map, filterMap_rcptOf_comp, rcptOf]

/-- Witness for C5 on the spec's concrete scenario: sender `a@x.com`,
recipients `b@y.com`, `c@y.com`, relay rejecting `c@y.com`. -/
theorem sendMail_rcpt_reject_aborts_witness :
    (SendMail relayRejectC "relay:25" "" "" "a@x.com"
        (["b@y.com"] ++ "c@y.com" :: []) []).1 = some "550 rejected" ∧
      List.filterMap rcptOf (SendMail relayRejectC "relay:25" "" "" "a@x.com"
          (["b@y.com"] ++ "c@y.com" :: []) []).2 = ["b@y.com"] ++ ["c@y.com"] ∧
      Event.data ∉ (SendMail relayRejectC "relay:25" "" "" "a@x.com"
          (["b@y.com"] ++ "c@y.com" :: []) []).2 ∧
      List.count Event.closeConn (SendMail relayRejectC "relay:25" "" "" "a@x.com"
          (["b@y.com"] ++ "c@y.com" :: []) []).2 = 1 :=
  sendMail_rcpt_reject_aborts relayRejectC "relay:25" "" "" "a@x.com"
    ["b@y.com"] [] "c@y.com" "550 rejected" [] rfl rfl (fun h => by cases h) rfl
    (by decide) (by decide)

/-- Counterexample to C7: `Send` does not parse or validate recipient
addresses.  With a sender the parser accepts and a recipient it rejects
(`toyParse "bad"` is an error), `Send` nevertheless succeeds, opens the
connection and declares the malformed recipient on the wire. -/
theorem send_recipient_not_validated_cex :
    toyParse "bad" = .error "mail: missing @ in addr-spec" ∧
      (Send envOK relayOK ⟨"a@x.com", ["bad"], [], []⟩ "relay:25" "" "").1 = none ∧
      Event.dial "relay:25" ∈
        (Send envOK relayOK ⟨"a@x.com", ["bad"], [], []⟩ "relay:25" "" "").2 ∧
      Event.rcpt "bad" ∈
        (Send envOK relayOK ⟨"a@x.com", ["bad"], [], []⟩ "relay:25" "" "").2 := by
  refine ⟨rfl, rfl, ?_, ?_⟩ <;> decide

/-- Claim C7 (amended): `Send` parses and validates only the sender address;
when `mail.ParseAddress` rejects the From address, `Send` returns that
parse error with an empty trace, before `SendMail` is invoked and before any
socket is opened.  Recipient addresses are passed through unvalidated. -/
theorem send_malformed_sender_errors (env : MailEnv) (r : Relay) (e : Email)
    (addr username password err : String)
    (hf : e.From ≠ "") (hne : e.To ++ e.Cc ++ e.Bcc ≠ [])
    (hp : env.parseAddress e.From = .error err) :
    Send env r e addr username password = (some err, []) := by
  have hcond : (e.From = "" ∨ e.To ++ e.Cc ++ e.Bcc = []) = False :=
    eq_false fun h => h.elim hf hne
  simp only [Send, hcond, if_false, hp]

/-- Witness for the amended C7 at a sender without an `@`. -/
theorem send_malformed_sender_errors_witness :
    Send envOK relayOK ⟨"nodomain", ["b@y.com"], [], []⟩ "relay:25" "" "" =
      (some "mail: missing @ in addr-spec", []) :=
  send_malformed_sender_errors envOK relayOK ⟨"nodomain", ["b@y.com"], [], []⟩
    "relay:25" "" "" "mail: missing @ in addr-spec" (by decide) (by decide) rfl

/-- Counterexample to C8: with a body template configured,
`UseFullContext = false` and `UseBody = true`, the payload `DoPost` sends is
the template rendered over the raw body string — not the raw body string
itself. -/
theorem doPost_payload_not_raw_body_cex :
    (notifWrap.DoPost incident0 env200).payloadSent = some "[body-text]" ∧
      (notifWrap.DoPost incident0 env200).payloadSent ≠ some incident0.Body := by
  refine ⟨?_, ?_⟩ <;> decide

/-- Claim C8 (amended): with a body template configured,
`UseFullContext = false` and `UseBody = true`, the template is executed with
the incident's raw body string as context — not with the full incident —
and the payload `DoPost` sends is that rendering (so it equals the raw body
only when the template renders its context verbatim). -/
theorem doPost_template_over_body (n : Notification) (st : IncidentState) (env : HttpEnv)
    (tmpl : Template) (rendered : String)
    (hb : n.Body = some tmpl) (hctx : n.UseFullContext = false) (hub : n.UseBody = true)
    (hrun : tmpl.run (TmplContext.flat st.Body) = .ok rendered) :
    n.DoPost st env = postStep rendered env ∧
      (n.DoPost st env).payloadSent = some rendered := by
  have h1 : n.DoPost st env = postStep rendered env := by
    simp [Notification.DoPost, Notification.GetPayload, hb, hctx, hub, hrun]
  refine ⟨h1, ?_⟩
  rw [h1]
  cases hr : env.postResp with
  | error e => simp [postStep, hr]
  | ok s => by_cases h : s ≥ 300 <;> simp [postStep, hr, h]

/-- Witness for the amended C8 on the bracketing template. -/
theorem doPost_template_over_body_witness :
    notifWrap.DoPost incident0 env200 = postStep "[body-text]" env200 ∧
      (notifWrap.DoPost incident0 env200).payloadSent = some "[body-text]" :=
  doPost_template_over_body notifWrap incident0 env200 wrapTemplate "[body-text]"
    rfl rfl rfl rfl

/-- Claim C9: when the HTTP POST receives a response status of at least 300
(such as 404), `DoPost` logs a failure and no success; it propagates no
error (its outcome carries no error channel, matching the `void` Go
function), and the email sent/failed counters are untouched. -/
theorem doPost_bad_status_soft_failure (n : Notification) (st : IncidentState)
    (env : HttpEnv) (s : Nat) (hr : env.postResp = .ok s) (hs : 300 ≤ s) :
    (n.DoPost st env).sentDelta = 0 ∧ (n.DoPost st env).failedDelta = 0 ∧
      ((n.DoPost st env).payloadSent ≠ none →
        (n.DoPost st env).loggedError = true ∧
          (n.DoPost st env).loggedSuccess = false) := by
  cases hb : n.Body with
  | none =>
    simp [Notification.DoPost, hb, postStep, hr, hs]
  | some tmpl =>
    cases hrun : tmpl.run (if n.UseFullContext then TmplContext.incident st
        else TmplContext.flat (n.GetPayload st.Subject st.Body)) with
    | error e => simp [Notification.DoPost, hb, hrun]
    | ok rendered => simp [Notification.DoPost, hb, hrun, postStep, hr, hs]

/-- Witness for C9 at status 404 with no template configured. -/
theorem doPost_bad_status_soft_failure_witness :
    (notifPlain.DoPost incident0 env404).sentDelta = 0 ∧
      (notifPlain.DoPost incident0 env404).failedDelta = 0 ∧
      ((notifPlain.DoPost incident0 env404).payloadSent ≠ none →
        (notifPlain.DoPost incident0 env404).loggedError = true ∧
          (notifPlain.DoPost incident0 env404).loggedSuccess = false) :=
  doPost_bad_status_soft_failure notifPlain incident0 env404 404 rfl (by decide)

end Bosun
